import Mathlib

/-!
Shallow embedding of the SAR2022 Streamlit application (`app.py`).

The program ingests uploaded documents (PDF / DOCX / Excel / CSV / PPTX),
extracts plain text from each, truncates tabular data to `MAX_ROWS` x
`MAX_COLS`, concatenates everything with START/END markers plus optional
user notes, and passes the blob to an external generation service.

Python byte streams are modelled by their parse outcomes: every library
parse that can throw is represented by an `Except PyError` value, and the
`try/except` blocks of the source become matches on that value.  Pandas
DataFrames are modelled as a header row plus a list of string rows.
-/

namespace SAR2022

/-- Model of a raised Python exception.  `importMissing` models the
dedicated `ImportError` branch of the Excel extractor; `runtimeError`
models every other exception. -/
inductive PyError where
  | importMissing (msg : String)
  | runtimeError (msg : String)
deriving Repr, DecidableEq

/-- Model of `str.lower`. -/
def pyLower (s : String) : String := ⟨s.data.map Char.toLower⟩

/-- Model of `str.endswith(post)`. -/
def pyEndsWith (s post : String) : Bool := List.isSuffixOf post.data s.data

/-- Model of `str.strip()`: drop leading and trailing whitespace. -/
def pyStrip (s : String) : String :=
  ⟨(((s.data.dropWhile Char.isWhitespace).reverse).dropWhile Char.isWhitespace).reverse⟩

/-- Substring test on lists of characters: `hasSubList pat l` is true iff
`pat` occurs contiguously inside `l`.  Models Python's `pat in s`. -/
def hasSubList (pat : List Char) : List Char → Bool
  | [] => pat == []
  | c :: rest => pat.isPrefixOf (c :: rest) || hasSubList pat rest

/-- Model of Python's substring operator `pat in s`. -/
def strHasSub (s pat : String) : Bool := hasSubList pat.toList s.toList

-- ====== CONFIGS (app.py lines 20-21) ======

/-- Row cap per sheet/table (app.py line 20). -/
def MAX_ROWS : Nat := 300

/-- Column cap per sheet/table (app.py line 21). -/
def MAX_COLS : Nat := 50

-- ===================== pandas DataFrame model =====================

/-- Model of a pandas DataFrame read with `dtype=str`: column names plus
rows of string cells.  `shape = (rows.length, colNames.length)`. -/
structure DataFrame where
  colNames : List String
  rows : List (List String)
deriving Repr, DecidableEq, Inhabited

/-- Model of `df.copy()`: pandas returns a fresh object with the same
contents; on values this is the identity. -/
def DataFrame.copy (df : DataFrame) : DataFrame := df

/-- Model of `df.head(n)`: a new frame with the first `n` rows. -/
def DataFrame.head (df : DataFrame) (n : Nat) : DataFrame :=
  { df with rows := df.rows.take n }

/-- Model of `df.iloc[:, :n]`: a new frame with the first `n` columns. -/
def DataFrame.ilocCols (df : DataFrame) (n : Nat) : DataFrame :=
  { colNames := df.colNames.take n, rows := df.rows.map (fun r => r.take n) }

/-- `df.shape[0]`. -/
def DataFrame.nrows (df : DataFrame) : Nat := df.rows.length

/-- `df.shape[1]`. -/
def DataFrame.ncols (df : DataFrame) : Nat := df.colNames.length

/-- Embedding of `_limit_df` (app.py lines 57-63). -/
def limit_df (df0 : DataFrame) (max_rows max_cols : Nat) : DataFrame :=
  let df1 := df0.copy
  let df2 := if df1.nrows > max_rows then df1.head max_rows else df1
  let df3 := if df2.ncols > max_cols then df2.ilocCols max_cols else df2
  df3

/-- Model of `df.to_csv(index=False)`: the header line followed by one
line per row, each line comma-joined and newline-terminated.  (Pandas
quoting of cells containing special characters is not modelled; no claim
depends on it.) -/
def to_csv (df : DataFrame) : String :=
  String.join ((df.colNames :: df.rows).map (fun r => String.intercalate "," r ++ "\n"))

-- ===================== Helper: PDF (app.py lines 66-78) =====================

/-- Model of a parsed PDF: the per-page results of `page.extract_text()`,
with `None` absorbed as the empty string (both are falsy in the source's
`if page_text:`). -/
structure PdfDoc where
  pages : List String
deriving Repr, DecidableEq

/-- Embedding of `extract_text_from_pdf`.  The argument is the outcome of
`PdfReader(file)` plus the page-text extraction; `.error` is the `except`
branch, which shows a diagnostic and returns `""`. -/
def extract_text_from_pdf (inp : Except PyError PdfDoc) : String :=
  match inp with
  | .error _ => ""
  | .ok doc =>
      doc.pages.foldl (fun text page_text =>
        if !(page_text == "") then text ++ page_text ++ "\n" else text) ""

-- ===================== Helper: DOCX (app.py lines 81-89) =====================

/-- Embedding of `extract_text_from_docx`.  The argument is the outcome of
`Document(...)`, giving the paragraph texts; `.error` is the `except`
branch returning `""`. -/
def extract_text_from_docx (inp : Except PyError (List String)) : String :=
  match inp with
  | .error _ => ""
  | .ok paragraphs => String.intercalate "\n" paragraphs

-- ===================== Helper: CSV (app.py lines 92-100) =====================

/-- Embedding of `extract_text_from_csv`.  The argument is the outcome of
`pd.read_csv(file, dtype=str)`; `.error` is the `except` branch. -/
def extract_text_from_csv (inp : Except PyError DataFrame) : String :=
  match inp with
  | .error _ => ""
  | .ok df => to_csv (limit_df df MAX_ROWS MAX_COLS)

-- ===================== Helper: Excel (app.py lines 103-132) =====================

/-- Model of an opened `pd.ExcelFile`: the sheet names in workbook order,
each paired with the outcome of `xls.parse(sheet_name=..., dtype=str)`
(which can itself throw mid-loop).  The engine selection by extension
(lines 109-117) only affects which parses succeed, which this outcome
already records. -/
abbrev Workbook := List (String × Except PyError DataFrame)

/-- The sheet loop of `extract_text_from_excel` (lines 118-123): builds
the `parts` list, propagating the first per-sheet exception outward. -/
def excelParts : Workbook → Except PyError (List String)
  | [] => .ok []
  | (_, .error e) :: _ => .error e
  | (sheet_name, .ok df) :: rest =>
      match excelParts rest with
      | .error e => .error e
      | .ok ps =>
          .ok (("[Sheet: " ++ sheet_name ++ "]\n"
                ++ to_csv (limit_df df MAX_ROWS MAX_COLS) ++ "\n") :: ps)

/-- Embedding of `extract_text_from_excel`.  `.error` on the argument is a
failure of `pd.ExcelFile(...)` itself; an `.error` among the sheets is an
exception thrown inside the loop.  Both land in an `except` branch that
shows a diagnostic and returns `""` (lines 126-132). -/
def extract_text_from_excel (inp : Except PyError Workbook) : String :=
  match inp with
  | .error _ => ""
  | .ok wb =>
      match excelParts wb with
      | .error _ => ""
      | .ok parts => String.intercalate "\n" parts

-- ===================== Helper: PPTX (app.py lines 135-174) =====================

mutual
/-- Model of a python-pptx shape.  `hasTextFrame`/`hasTable` model the
`has_text_frame`/`has_table` attributes tested by `_walk_shapes`;
`textFrameText` is `sh.text_frame.text or ""`; `tableRows` holds the
`c.text` of every cell of `sh.table`; `groupShapes = some children` models
`hasattr(sh, "shapes")` (a group shape with member shapes). -/
inductive Shape where
  | mk (hasTextFrame : Bool) (textFrameText : String)
       (hasTable : Bool) (tableRows : List (List String))
       (groupShapes : Option ShapeList)

/-- A list of shapes (one level of `slide.shapes` or `group.shapes`). -/
inductive ShapeList where
  | nil
  | cons (head : Shape) (tail : ShapeList)
end

/-- Embedding of `_extract_text_from_table` (app.py lines 135-139):
rows comma-joined over stripped cell texts, then newline-joined. -/
def extract_text_from_table (tbl : List (List String)) : String :=
  String.intercalate "\n" (tbl.map (fun r => String.intercalate "," (r.map pyStrip)))

mutual
/-- One iteration of the loop body of `_walk_shapes` (app.py lines 142-153)
for a single shape `sh`, appending to the accumulator `out_parts`. -/
def walk_shape (sh : Shape) (out_parts : List String) : List String :=
  match sh with
  | .mk hasTF txt hasTbl tbl group =>
      let out1 := if hasTF && !(pyStrip txt == "") then out_parts ++ [pyStrip txt] else out_parts
      let out2 := if hasTbl then out1 ++ [extract_text_from_table tbl] else out1
      match group with
      | none => out2
      | some children => walk_shapes children out2

/-- Embedding of `_walk_shapes` (app.py lines 141-153): iterates over the
shapes, recursing into group members. -/
def walk_shapes (shapes : ShapeList) (out_parts : List String) : List String :=
  match shapes with
  | .nil => out_parts
  | .cons sh rest => walk_shapes rest (walk_shape sh out_parts)
end

mutual
/-- A size measure on shapes used to bound the recursion depth of
`walk_shape`; every shape counts 1 plus its group members. -/
def shapeSize : Shape → Nat
  | .mk _ _ _ _ none => 1
  | .mk _ _ _ _ (some children) => 1 + shapesSize children

/-- Size measure on shape lists; `nil` costs 1 so that one unit of fuel
always suffices to return from an empty list. -/
def shapesSize : ShapeList → Nat
  | .nil => 1
  | .cons sh rest => 1 + max (shapeSize sh) (shapesSize rest)
end

mutual
/-- Fuelled variant of `walk_shape`: every recursive call consumes one
unit of fuel and exhausted fuel yields `none`.  Used to state that the
unbounded recursion of the source terminates. -/
def walk_shape_fuel : Nat → Shape → List String → Option (List String)
  | 0, _, _ => none
  | Nat.succ f, .mk hasTF txt hasTbl tbl group, out_parts =>
      let out1 := if hasTF && !(pyStrip txt == "") then out_parts ++ [pyStrip txt] else out_parts
      let out2 := if hasTbl then out1 ++ [extract_text_from_table tbl] else out1
      match group with
      | none => some out2
      | some children => walk_shapes_fuel f children out2

/-- Fuelled variant of `walk_shapes`. -/
def walk_shapes_fuel : Nat → ShapeList → List String → Option (List String)
  | 0, _, _ => none
  | Nat.succ _, .nil, out_parts => some out_parts
  | Nat.succ f, .cons sh rest, out_parts =>
      match walk_shape_fuel f sh out_parts with
      | none => none
      | some out2 => walk_shapes_fuel f rest out2
end

/-- Model of one slide: its shape tree, `slide.has_notes_slide`, and the
notes text frame (`some txt` when `slide.notes_slide.notes_text_frame` is
truthy, with `txt` its `.text or ""`). -/
structure Slide where
  shapes : ShapeList
  hasNotesSlide : Bool
  notesTextFrame : Option String

/-- The body of the slide loop of `extract_text_from_pptx` (app.py lines
162-170) for slide number `i` (1-based, from `enumerate(..., start=1)`). -/
def slideText (i : Nat) (slide : Slide) : String :=
  let slide_parts := ["[Slide " ++ toString i ++ "]"]
  let slide_parts := walk_shapes slide.shapes slide_parts
  let slide_parts :=
    match slide.hasNotesSlide, slide.notesTextFrame with
    | true, some note =>
        if !(pyStrip note == "") then slide_parts ++ ["[Notes]\n" ++ pyStrip note]
        else slide_parts
    | _, _ => slide_parts
  String.intercalate "\n" slide_parts

/-- The slide loop with the 1-based counter of `enumerate(prs.slides, start=1)`. -/
def slidesParts : Nat → List Slide → List String
  | _, [] => []
  | i, slide :: rest => slideText i slide :: slidesParts (i + 1) rest

/-- Embedding of `extract_text_from_pptx` (app.py lines 155-174).  The
argument is the outcome of `Presentation(...)`; `.error` is the `except`
branch returning `""`. -/
def extract_text_from_pptx (inp : Except PyError (List Slide)) : String :=
  match inp with
  | .error _ => ""
  | .ok slides => String.intercalate "\n\n" (slidesParts 1 slides)

-- ===================== Aggregate all input (app.py lines 177-217) =====================

/-- Model of a Streamlit `UploadedFile`: its name, its declared MIME type,
and its byte stream.  The opaque byte stream is represented by the five
parse outcomes the program can subject it to — one per format library. -/
structure UploadedFile where
  name : String
  type : String
  asPdf : Except PyError PdfDoc
  asDocx : Except PyError (List String)
  asWorkbook : Except PyError Workbook
  asCsv : Except PyError DataFrame
  asPptx : Except PyError (List Slide)

/-- The extractor chosen by the dispatch chain of `get_all_input_text`. -/
inductive Handler where
  | pdf
  | docx
  | excel
  | csv
  | pptx
  | unsupported
deriving Repr, DecidableEq

/-- Embedding of the dispatch chain of `get_all_input_text` (app.py lines
185-208): `name`/`mime` are lowercased, then the `if/elif` cascade tests,
in order, each format's suffix-or-media-type condition. -/
def dispatch (rawName rawMime : String) : Handler :=
  let name := pyLower rawName
  let mime := pyLower rawMime
  if pyEndsWith name ".pdf" || strHasSub mime "pdf" then .pdf
  else if pyEndsWith name ".docx" || strHasSub mime "wordprocessingml" then .docx
  else if pyEndsWith name ".xlsx" || pyEndsWith name ".xlsm"
          || strHasSub mime "officedocument.spreadsheetml" then .excel
  else if pyEndsWith name ".xls" || mime == "application/vnd.ms-excel" then .excel
  else if pyEndsWith name ".csv" || strHasSub mime "text/csv" then .csv
  else if pyEndsWith name ".pptx"
          || strHasSub mime "officedocument.presentationml.presentation" then .pptx
  else .unsupported

/-- The text the chosen extractor contributes for one file.  The
`.unsupported` case is the `else` branch (line 208): a visible
`st.warning` and no text. -/
def extract_dispatched (f : UploadedFile) : String :=
  match dispatch f.name f.type with
  | .pdf => extract_text_from_pdf f.asPdf
  | .docx => extract_text_from_docx f.asDocx
  | .excel => extract_text_from_excel f.asWorkbook
  | .csv => extract_text_from_csv f.asCsv
  | .pptx => extract_text_from_pptx f.asPptx
  | .unsupported => ""

/-- One iteration of the file loop (app.py lines 183-212): the START
marker, the dispatched extraction, and the END marker. -/
def fileBlock (f : UploadedFile) : String :=
  "--- START OF FILE: " ++ f.name ++ " ---\n\n"
    ++ extract_dispatched f
    ++ "\n\n--- END OF FILE: " ++ f.name ++ " ---\n\n"

/-- The user-notes block appended when `additional_context` is truthy
(app.py line 215). -/
def userNotesBlock (additional_context : String) : String :=
  "--- START OF ADDITIONAL USER NOTES ---\n\n" ++ additional_context
    ++ "\n\n--- END OF ADDITIONAL USER NOTES ---\n\n"

/-- Embedding of `get_all_input_text` (app.py lines 177-217). -/
def get_all_input_text (uploaded_files : List UploadedFile)
    (additional_context : String) : String × Bool :=
  if uploaded_files.isEmpty && (additional_context == "") then ("", false)
  else
    let full_text := (uploaded_files.map fileBlock).foldl (fun a b => a ++ b) ""
    let full_text :=
      if !(additional_context == "") then full_text ++ userNotesBlock additional_context
      else full_text
    (full_text, true)

-- ===================== SAR items catalog (app.py lines 33-47) =====================

/-- Embedding of the `SAR_ITEMS` dictionary exactly as written in the
source: entries 1-11, the elision comment `# ... (คงเดิมถึง 82)`, and
entry 82.  Insertion order is the literal order. -/
def SAR_ITEMS : List (Nat × String) := [
  (1, "I-1.1ก(1)(2)(3) การชี้นำองค์กรโดยผู้นำระดับสูง"),
  (2, "I-1.1ข การสื่อสาร สร้างความผูกพันโดยผู้นำ**"),
  (3, "I-1.1ค(1)(2)(3) การสร้างสิ่งแวดล้อมที่เอื้อต่อการพัฒนาและความสำเร็จขององค์กร**"),
  (4, "I-1.2ก(1)(2) ระบบกำกับดูแลกิจการ การประเมินผู้นำ/ระบบการนำ"),
  (5, "I-1.2ก(3) ระบบกำกับดูแลทางคลินิก**"),
  (6, "I-1.2ข(1)(2)(3),ค(1)(2) การปฏิบัติตามกฎหมาย การทำประโยชน์ให้สังคมและการดำเนินงานอย่างมีจริยธรรม"),
  (7, "I-2.1ก(1)(2)(3)(4) กระบวนการจัดทำ วางแผนกลยุทธ์และการวิเคราะห์ข้อมูล **"),
  (8, "I-2.1ข(1)(2)(3) วัตถุประสงค์เชิงกลยุทธ์..."),
  (9, "I-2.2ก(1)(2)(3)(4) การจัดทำแผนปฏิบัติการ..."),
  (10, "I-2.2ก(5), ข การกำหนดตัวชี้วัด..."),
  (11, "I-3.1ก(1) การรับฟัง/เรียนรู้ความต้องการ..."),
  (82, "III-6 การดูแลต่อเนื่อง**")
]

/-- Embedding of `sar_options` (app.py line 306): the selector entries
built from the catalog. -/
def sar_options : List String :=
  SAR_ITEMS.map (fun kv => toString kv.1 ++ ". " ++ kv.2)

-- ===================== Generate-button handler (app.py lines 335-351) =====================

/-- The observable outcome of one press of the generate button, up to the
point where `generate_sar_section` (the external Gemini call) would run:
`invokedGeneration ctx` records that the client was invoked with context
`ctx`; the other constructors are the three `st.error` rejections. -/
inductive ClickOutcome where
  | errorSelectTopic
  | errorNoInput
  | errorFilesNotOk
  | invokedGeneration (context_data : String)
deriving Repr, DecidableEq

/-- Python truthiness of the selectbox value (`None` until a choice is
made, otherwise a non-empty label string). -/
def pyTruthy (s : Option String) : Bool :=
  match s with
  | none => false
  | some t => !(t == "")

/-- Embedding of the `if generate_button:` handler (app.py lines 335-351),
returning which branch runs. -/
def generate_click (selected_option_str : Option String)
    (uploaded_files : List UploadedFile) (additional_context : String) : ClickOutcome :=
  if !pyTruthy selected_option_str then .errorSelectTopic
  else if uploaded_files.isEmpty && (additional_context == "") then .errorNoInput
  else
    let res := get_all_input_text uploaded_files additional_context
    if res.2 then .invokedGeneration res.1 else .errorFilesNotOk

-- ===================== Heap model for _limit_df (app.py lines 57-63) =====================

/-- A heap of pandas DataFrame objects; addresses are list indices and
allocation appends.  Used to state that `_limit_df` never mutates the
caller's object: `df.copy()`, `df.head(...)` and `df.iloc[...]` each
return a fresh object. -/
abbrev Heap := List DataFrame

/-- Allocate a fresh DataFrame object, returning its address. -/
def heapAlloc (h : Heap) (df : DataFrame) : Heap × Nat := (h ++ [df], h.length)

/-- Read the object at an address. -/
def heapGet (h : Heap) (i : Nat) : DataFrame := h.getD i default

/-- Embedding of `_limit_df` at the object level: the argument is an
address into the heap; every pandas call allocates, and the local `df`
variable is rebound to the new address, exactly as in lines 58-63. -/
def limit_df_heap (h0 : Heap) (arg : Nat) (max_rows max_cols : Nat) : Heap × Nat :=
  let a1 := heapAlloc h0 (heapGet h0 arg).copy
  let h1 := a1.1
  let r1 := a1.2
  let a2 :=
    if (heapGet h1 r1).nrows > max_rows then heapAlloc h1 ((heapGet h1 r1).head max_rows)
    else (h1, r1)
  let h2 := a2.1
  let r2 := a2.2
  let a3 :=
    if (heapGet h2 r2).ncols > max_cols then heapAlloc h2 ((heapGet h2 r2).ilocCols max_cols)
    else (h2, r2)
  a3

-- ===================== Theorems =====================

/-- C1: the `ok` component of `get_all_input_text` is `false` exactly when
both the artifact list and the notes are empty; with zero artifacts and
non-empty notes the result is `ok = true` and the text is exactly the
user-notes block wrapped in its START/END OF ADDITIONAL USER NOTES
markers, with no other content. -/
theorem get_all_input_text_ok_iff (uploaded_files : List UploadedFile)
    (additional_context : String) :
    ((get_all_input_text uploaded_files additional_context).2 = false ↔
      uploaded_files = [] ∧ additional_context = "") ∧
    (uploaded_files = [] → additional_context ≠ "" →
      get_all_input_text uploaded_files additional_context =
        (userNotesBlock additional_context, true)) := by
  constructor
  · rcases uploaded_files with _ | ⟨f, fs⟩ <;>
      by_cases hn : additional_context = "" <;>
        simp [get_all_input_text, hn]
  · rintro rfl hn
    have hb : (additional_context == "") = false := by
      simpa using hn
    simp [get_all_input_text, hb]

/-- C1 witness: with no artifacts and the non-empty note `"hello"`,
aggregation succeeds and returns exactly the notes block. -/
theorem get_all_input_text_ok_iff_witness :
    get_all_input_text [] "hello" = (userNotesBlock "hello", true) :=
  (get_all_input_text_ok_iff [] "hello").2 rfl (by decide)

/-- C5: for a non-empty list of artifacts the aggregated text is the
concatenation, in upload order, of one marker-wrapped block per artifact,
followed (when the notes are non-empty) by the single user-notes block;
each block is the START/END OF FILE markers around that artifact's
extracted text, and the result is a pure function of the inputs. -/
theorem aggregate_concat_order (uploaded_files : List UploadedFile)
    (additional_context : String) (hne : uploaded_files ≠ []) :
    (get_all_input_text uploaded_files additional_context).1 =
      String.join (uploaded_files.map fileBlock) ++
        (if additional_context = "" then ""
         else userNotesBlock additional_context) ∧
    (get_all_input_text uploaded_files additional_context).2 = true ∧
    ∀ f : UploadedFile, fileBlock f =
      "--- START OF FILE: " ++ f.name ++ " ---\n\n"
        ++ extract_dispatched f
        ++ "\n\n--- END OF FILE: " ++ f.name ++ " ---\n\n" := by
  rcases uploaded_files with _ | ⟨f, fs⟩
  · exact absurd rfl hne
  · refine ⟨?_, by simp [get_all_input_text], fun f => rfl⟩
    by_cases hn : additional_context = "" <;>
      simp [get_all_input_text, hn, String.join]

/-- C5 witness: a one-artifact batch (an unreadable PDF) with empty notes
aggregates to exactly that artifact's marker block. -/
theorem aggregate_concat_order_witness :
    ([UploadedFile.mk "a.pdf" "application/pdf"
        (Except.error (PyError.runtimeError "bad"))
        (Except.error (PyError.runtimeError "bad"))
        (Except.error (PyError.runtimeError "bad"))
        (Except.error (PyError.runtimeError "bad"))
        (Except.error (PyError.runtimeError "bad"))] ≠
      ([] : List UploadedFile)) ∧
    (get_all_input_text
        [UploadedFile.mk "a.pdf" "application/pdf"
          (Except.error (PyError.runtimeError "bad"))
          (Except.error (PyError.runtimeError "bad"))
          (Except.error (PyError.runtimeError "bad"))
          (Except.error (PyError.runtimeError "bad"))
          (Except.error (PyError.runtimeError "bad"))] "").1 =
      String.join
        ([UploadedFile.mk "a.pdf" "application/pdf"
          (Except.error (PyError.runtimeError "bad"))
          (Except.error (PyError.runtimeError "bad"))
          (Except.error (PyError.runtimeError "bad"))
          (Except.error (PyError.runtimeError "bad"))
          (Except.error (PyError.runtimeError "bad"))].map fileBlock) ++
        (if ("" : String) = "" then "" else userNotesBlock "") :=
  ⟨List.cons_ne_nil _ _,
   (aggregate_concat_order _ "" (List.cons_ne_nil _ _)).1⟩

/-- C4: a button press with a selected topic but no uploaded artifacts and
empty notes runs the validation `st.error` branch, so the generation
client (`generate_sar_section`, hence the Gemini call) is never invoked. -/
theorem no_generation_without_input (topic : String) (htopic : topic ≠ "") :
    generate_click (some topic) [] "" = ClickOutcome.errorNoInput ∧
    ∀ ctx : String,
      generate_click (some topic) [] "" ≠ ClickOutcome.invokedGeneration ctx := by
  have hb : (topic == "") = false := by simpa using htopic
  constructor
  · simp [generate_click, pyTruthy, hb]
  · intro ctx
    simp [generate_click, pyTruthy, hb]

/-- C4 witness: with the concrete topic label of catalog entry 1 selected
and no input, the handler rejects and generation is not invoked. -/
theorem no_generation_without_input_witness :
    ("1. topic" ≠ "") ∧
    generate_click (some "1. topic") [] "" = ClickOutcome.errorNoInput :=
  ⟨by decide, (no_generation_without_input "1. topic" (by decide)).1⟩

/-- The sheet loop succeeds and applies `limit_df` to every sheet when all
sheet parses succeed. -/
lemma excelParts_all_ok (sheets : List (String × DataFrame)) :
    excelParts (sheets.map fun p => (p.1, Except.ok p.2)) =
      Except.ok (sheets.map fun p =>
        "[Sheet: " ++ p.1 ++ "]\n" ++ to_csv (limit_df p.2 MAX_ROWS MAX_COLS) ++ "\n") := by
  induction sheets with
  | nil => rfl
  | cons p rest ih =>
      obtain ⟨a, b⟩ := p
      simp [excelParts, ih]

/-- C2: `_limit_df` caps every table at `MAX_ROWS` rows and `MAX_COLS`
columns and keeps exactly the leading rows and leading columns; the Excel
extractor applies it to every sheet of a workbook and the CSV extractor to
the parsed file. -/
theorem limit_df_caps (df : DataFrame) :
    ((limit_df df MAX_ROWS MAX_COLS).rows.length ≤ MAX_ROWS ∧
     (limit_df df MAX_ROWS MAX_COLS).colNames.length ≤ MAX_COLS) ∧
    ((∀ r ∈ df.rows, r.length = df.colNames.length) →
      (limit_df df MAX_ROWS MAX_COLS).colNames = df.colNames.take MAX_COLS ∧
      (limit_df df MAX_ROWS MAX_COLS).rows =
        (df.rows.take MAX_ROWS).map (fun r => r.take MAX_COLS) ∧
      ∀ r ∈ (limit_df df MAX_ROWS MAX_COLS).rows, r.length ≤ MAX_COLS) ∧
    (∀ sheets : List (String × DataFrame),
      extract_text_from_excel (Except.ok (sheets.map fun p => (p.1, Except.ok p.2))) =
        String.intercalate "\n" (sheets.map fun p =>
          "[Sheet: " ++ p.1 ++ "]\n" ++ to_csv (limit_df p.2 MAX_ROWS MAX_COLS) ++ "\n")) ∧
    extract_text_from_csv (Except.ok df) = to_csv (limit_df df MAX_ROWS MAX_COLS) := by
  refine ⟨?_, ?_, ?_, rfl⟩
  · by_cases h1 : df.rows.length > MAX_ROWS <;>
      by_cases h2 : df.colNames.length > MAX_COLS <;>
        simp [limit_df, DataFrame.copy, DataFrame.nrows, DataFrame.ncols,
          DataFrame.head, DataFrame.ilocCols, h1, h2, List.length_take] <;>
        omega
  · intro hwf
    have hkey :
        (limit_df df MAX_ROWS MAX_COLS).colNames = df.colNames.take MAX_COLS ∧
        (limit_df df MAX_ROWS MAX_COLS).rows =
          (df.rows.take MAX_ROWS).map (fun r => r.take MAX_COLS) := by
      have hmap : ¬df.colNames.length > MAX_COLS →
          List.map (fun r => List.take MAX_COLS r) df.rows = df.rows := by
        intro h2
        have hid : ∀ r ∈ df.rows, List.take MAX_COLS r = id r := by
          intro r hr
          simpa using List.take_of_length_le (by rw [hwf r hr]; omega)
        rw [List.map_congr_left hid, List.map_id]
      by_cases h1 : df.rows.length > MAX_ROWS <;>
        by_cases h2 : df.colNames.length > MAX_COLS
      all_goals first
        | (simp [limit_df, DataFrame.copy, DataFrame.nrows, DataFrame.ncols,
            DataFrame.head, DataFrame.ilocCols, h1, h2, hmap h2] <;> omega)
        | (simp [limit_df, DataFrame.copy, DataFrame.nrows, DataFrame.ncols,
            DataFrame.head, DataFrame.ilocCols, h1, h2] <;> omega)
    refine ⟨hkey.1, hkey.2, ?_⟩
    intro r hr
    rw [hkey.2] at hr
    obtain ⟨r0, _, rfl⟩ := List.mem_map.mp hr
    simp [List.length_take]
  · intro sheets
    simp [extract_text_from_excel, excelParts_all_ok]

/-- C2 witness: a concrete two-row one-column frame is well-formed and is
returned with its leading rows and columns intact. -/
theorem limit_df_caps_witness :
    (∀ r ∈ (DataFrame.mk ["c1"] [["a"], ["b"]]).rows,
      r.length = (DataFrame.mk ["c1"] [["a"], ["b"]]).colNames.length) ∧
    ((limit_df (DataFrame.mk ["c1"] [["a"], ["b"]]) MAX_ROWS MAX_COLS).colNames =
        (DataFrame.mk ["c1"] [["a"], ["b"]]).colNames.take MAX_COLS ∧
      (limit_df (DataFrame.mk ["c1"] [["a"], ["b"]]) MAX_ROWS MAX_COLS).rows =
        ((DataFrame.mk ["c1"] [["a"], ["b"]]).rows.take MAX_ROWS).map
          (fun r => r.take MAX_COLS) ∧
      ∀ r ∈ (limit_df (DataFrame.mk ["c1"] [["a"], ["b"]]) MAX_ROWS MAX_COLS).rows,
        r.length ≤ MAX_COLS) :=
  ⟨by decide, (limit_df_caps (DataFrame.mk ["c1"] [["a"], ["b"]])).2.1 (by decide)⟩

/-- Any workbook containing a failed sheet parse makes the sheet loop
raise, landing in the `except` branch. -/
lemma excelParts_with_error (e : PyError) (nm : String) (post : Workbook) :
    ∀ pre : Workbook, ∃ e', excelParts (pre ++ (nm, Except.error e) :: post) =
      Except.error e' := by
  intro pre
  induction pre with
  | nil => exact ⟨e, rfl⟩
  | cons p rest ih =>
      obtain ⟨a, b⟩ := p
      cases b with
      | error e2 => exact ⟨e2, rfl⟩
      | ok df =>
          obtain ⟨e', he⟩ := ih
          exact ⟨e', by simp [excelParts, he]⟩

/-- C3: no format extractor lets an exception escape to its caller: for
every internal failure (a failed library parse, or for Excel also a
per-sheet parse failure inside the loop) the `except` branch returns the
empty string, so the aggregation loop continues with the remaining
artifacts. -/
theorem extractors_never_raise :
    (∀ e : PyError,
      extract_text_from_pdf (Except.error e) = "" ∧
      extract_text_from_docx (Except.error e) = "" ∧
      extract_text_from_excel (Except.error e) = "" ∧
      extract_text_from_csv (Except.error e) = "" ∧
      extract_text_from_pptx (Except.error e) = "") ∧
    (∀ (e : PyError) (pre : Workbook) (nm : String) (post : Workbook),
      extract_text_from_excel (Except.ok (pre ++ (nm, Except.error e) :: post)) = "") := by
  refine ⟨fun e => ⟨rfl, rfl, rfl, rfl, rfl⟩, ?_⟩
  intro e pre nm post
  obtain ⟨e', he⟩ := excelParts_with_error e nm post pre
  simp [extract_text_from_excel, he]

/-- C7 (code bug): the `SAR_ITEMS` dictionary in the source holds only the
12 literal entries with keys 1-11 and 82 — the remaining topics are elided
behind the comment `# ... (คงเดิมถึง 82)` — so the catalog keys are not
1..82 and the selector offers 12 options, although the selector label
promises topics 1-82. -/
theorem sar_items_catalog_gap :
    SAR_ITEMS.map Prod.fst = [1, 2, 3, 4, 5, 6, 7, 8, 9, 10, 11, 82] ∧
    SAR_ITEMS.length = 12 ∧
    sar_options.length = 12 ∧
    List.lookup 12 SAR_ITEMS = none ∧
    SAR_ITEMS.map Prod.fst ≠ (List.range 82).map (fun i => i + 1) := by
  refine ⟨by decide, by decide, by rfl, by decide, by decide⟩

/-- C8: a deck with one slide holding a single 2x2 table `[[a,b],[c,d]]`,
no text frames and no speaker notes extracts to `[Slide 1]` followed by
the comma-joined rows `a,b` and `c,d` on separate lines, with no `[Notes]`
section. -/
theorem pptx_table_example :
    extract_text_from_pptx (Except.ok
      [Slide.mk (ShapeList.cons (Shape.mk false "" true [["a", "b"], ["c", "d"]] none)
        ShapeList.nil) false none]) = "[Slide 1]\na,b\nc,d" ∧
    strHasSub (extract_text_from_pptx (Except.ok
      [Slide.mk (ShapeList.cons (Shape.mk false "" true [["a", "b"], ["c", "d"]] none)
        ShapeList.nil) false none])) "[Notes]" = false := by
  exact ⟨by rfl, by decide⟩

/-- Every shape has positive size. -/
lemma shapeSize_pos : ∀ sh : Shape, 1 ≤ shapeSize sh
  | .mk _ _ _ _ none => by simp [shapeSize]
  | .mk _ _ _ _ (some _) => by simp [shapeSize]

/-- Every shape list has positive size. -/
lemma shapesSize_pos : ∀ shs : ShapeList, 1 ≤ shapesSize shs
  | .nil => le_refl 1
  | .cons _ _ => by simp [shapesSize]

/-- With fuel at least the size measure, the fuelled walk computes the
total walk. -/
lemma walk_fuel_eq : ∀ f : Nat,
    (∀ (sh : Shape) (out : List String), shapeSize sh ≤ f →
      walk_shape_fuel f sh out = some (walk_shape sh out)) ∧
    (∀ (shs : ShapeList) (out : List String), shapesSize shs ≤ f →
      walk_shapes_fuel f shs out = some (walk_shapes shs out)) := by
  intro f
  induction f with
  | zero =>
      constructor
      · intro sh out h
        exact absurd h (by have := shapeSize_pos sh; omega)
      · intro shs out h
        exact absurd h (by have := shapesSize_pos shs; omega)
  | succ f ih =>
      constructor
      · intro sh out hle
        match sh with
        | .mk htf txt htb tbl none =>
            simp [walk_shape_fuel, walk_shape]
        | .mk htf txt htb tbl (some cs) =>
            have hcs : shapesSize cs ≤ f := by
              simp [shapeSize] at hle
              omega
            simp [walk_shape_fuel, walk_shape, ih.2 cs _ hcs]
      · intro shs out hle
        match shs with
        | .nil => simp [walk_shapes_fuel, walk_shapes]
        | .cons s rest =>
            have hb : max (shapeSize s) (shapesSize rest) ≤ f := by
              simp [shapesSize] at hle
              omega
            have hs : shapeSize s ≤ f := le_trans (Nat.le_max_left _ _) hb
            have hr : shapesSize rest ≤ f := le_trans (Nat.le_max_right _ _) hb
            simp [walk_shapes_fuel, walk_shapes, ih.1 s out hs, ih.2 rest _ hr]

/-- C10: the recursive shape walk terminates on every finite shape tree,
including arbitrarily nested groups: running it with fuel equal to the
tree's size — one unit consumed per recursive call, each of which descends
into a strictly smaller subtree — never exhausts the fuel and returns the
total function's value. -/
theorem walk_shapes_terminates (shapes : ShapeList) (out_parts : List String) :
    walk_shapes_fuel (shapesSize shapes) shapes out_parts =
      some (walk_shapes shapes out_parts) :=
  (walk_fuel_eq (shapesSize shapes)).2 shapes out_parts (le_refl _)

/-- A freshly allocated object is read back unchanged. -/
lemma heapGet_alloc_last (hh : Heap) (df : DataFrame) :
    heapGet (hh ++ [df]) hh.length = df := by
  simp [heapGet, List.getD_eq_getElem?_getD, List.getElem?_concat_length]

/-- Allocation preserves every existing address. -/
lemma heap_alloc_preserves (hh : Heap) (df : DataFrame) (j : Nat)
    (hj : j < hh.length) : (hh ++ [df])[j]? = hh[j]? :=
  List.getElem?_append_left hj

/-- C9: `_limit_df` never mutates its argument: run on a heap of DataFrame
objects it only allocates (`df.copy()`, `df.head`, `df.iloc` each return a
fresh object), every pre-existing heap entry — in particular the caller's
frame — is unchanged, and the returned object holds `limit_df` of the
original value. -/
theorem limit_df_frame (h : Heap) (arg : Nat) (harg : arg < h.length) :
    (∀ j, j < h.length →
      (limit_df_heap h arg MAX_ROWS MAX_COLS).1[j]? = h[j]?) ∧
    heapGet (limit_df_heap h arg MAX_ROWS MAX_COLS).1
        (limit_df_heap h arg MAX_ROWS MAX_COLS).2 =
      limit_df (heapGet h arg) MAX_ROWS MAX_COLS := by
  have step1 : heapGet (h ++ [(heapGet h arg).copy]) h.length = heapGet h arg :=
    heapGet_alloc_last h _
  simp only [limit_df_heap, heapAlloc, step1]
  by_cases hc1 : (heapGet h arg).nrows > MAX_ROWS
  · simp only [hc1, if_true]
    have step2 : heapGet ((h ++ [(heapGet h arg).copy]) ++ [(heapGet h arg).head MAX_ROWS])
        (h ++ [(heapGet h arg).copy]).length = (heapGet h arg).head MAX_ROWS :=
      heapGet_alloc_last _ _
    simp only [step2]
    by_cases hc2 : ((heapGet h arg).head MAX_ROWS).ncols > MAX_COLS
    · simp only [hc2, if_true]
      constructor
      · intro j hj
        rw [heap_alloc_preserves _ _ j (by simp; omega),
          heap_alloc_preserves _ _ j (by simp; omega),
          heap_alloc_preserves _ _ j hj]
      · rw [heapGet_alloc_last]
        simp [limit_df, DataFrame.copy, hc1, hc2]
    · simp only [hc2, if_false]
      constructor
      · intro j hj
        rw [heap_alloc_preserves _ _ j (by simp; omega),
          heap_alloc_preserves _ _ j hj]
      · rw [step2]
        simp [limit_df, DataFrame.copy, hc1, hc2]
  · simp only [hc1, if_false, step1]
    by_cases hc2 : (heapGet h arg).ncols > MAX_COLS
    · simp only [hc2, if_true]
      constructor
      · intro j hj
        rw [heap_alloc_preserves _ _ j (by simp; omega),
          heap_alloc_preserves _ _ j hj]
      · rw [heapGet_alloc_last]
        simp [limit_df, DataFrame.copy, hc1, hc2]
    · simp only [hc2, if_false, step1]
      constructor
      · intro j hj
        rw [heap_alloc_preserves _ _ j hj]
      · simp [limit_df, DataFrame.copy, hc1, hc2]

/-- C9 witness: on a one-object heap the call leaves address 0 unchanged
and returns the truncation of the stored frame. -/
theorem limit_df_frame_witness :
    (0 < ([DataFrame.mk ["c1"] [["a"]]] : Heap).length) ∧
    (limit_df_heap [DataFrame.mk ["c1"] [["a"]]] 0 MAX_ROWS MAX_COLS).1[0]? =
      ([DataFrame.mk ["c1"] [["a"]]] : Heap)[0]? :=
  ⟨by decide,
   (limit_df_frame [DataFrame.mk ["c1"] [["a"]]] 0 (by decide)).1 0 (by decide)⟩

/-- Dispatcher as described by the claim, written from the claim's words
for comparison with `dispatch`: the file-name suffix is inspected first
across all formats, and only when no suffix matches does dispatch fall
back to substring matching on the declared media type. -/
def dispatch_claimed (rawName rawMime : String) : Handler :=
  let name := pyLower rawName
  let mime := pyLower rawMime
  if pyEndsWith name ".pdf" then .pdf
  else if pyEndsWith name ".docx" then .docx
  else if pyEndsWith name ".xlsx" || pyEndsWith name ".xlsm" || pyEndsWith name ".xls"
    then .excel
  else if pyEndsWith name ".csv" then .csv
  else if pyEndsWith name ".pptx" then .pptx
  else if strHasSub mime "pdf" then .pdf
  else if strHasSub mime "wordprocessingml" then .docx
  else if strHasSub mime "officedocument.spreadsheetml"
          || mime == "application/vnd.ms-excel" then .excel
  else if strHasSub mime "text/csv" then .csv
  else if strHasSub mime "officedocument.presentationml.presentation" then .pptx
  else .unsupported

/-- C6 counterexample: a file named `a.csv` whose declared media type is
`application/vnd.ms-excel` (the classic browser MIME for CSV files) has a
matching `.csv` suffix, so the claim routes it to the CSV extractor, but
the code's branch order matches the earlier `.xls` branch on the media
type and routes it to the Excel extractor. -/
theorem dispatch_suffix_priority_cex :
    dispatch "a.csv" "application/vnd.ms-excel" = Handler.excel ∧
    dispatch_claimed "a.csv" "application/vnd.ms-excel" = Handler.csv ∧
    Handler.excel ≠ Handler.csv :=
  ⟨by decide, by decide, by decide⟩

/-- The dispatch chain of `get_all_input_text` as an explicit ordered list
of (predicate, handler) pairs: each predicate tests the lowercased
file-name suffix or a substring of the lowercased declared media type. -/
def HANDLER_RULES : List ((String → String → Bool) × Handler) :=
  [(fun name mime => pyEndsWith name ".pdf" || strHasSub mime "pdf", .pdf),
   (fun name mime => pyEndsWith name ".docx" || strHasSub mime "wordprocessingml", .docx),
   (fun name mime => pyEndsWith name ".xlsx" || pyEndsWith name ".xlsm"
      || strHasSub mime "officedocument.spreadsheetml", .excel),
   (fun name mime => pyEndsWith name ".xls" || mime == "application/vnd.ms-excel", .excel),
   (fun name mime => pyEndsWith name ".csv" || strHasSub mime "text/csv", .csv),
   (fun name mime => pyEndsWith name ".pptx"
      || strHasSub mime "officedocument.presentationml.presentation", .pptx)]

/-- First matching rule wins; no rule falls through to `unsupported`. -/
def firstMatch (name mime : String) :
    List ((String → String → Bool) × Handler) → Handler
  | [] => .unsupported
  | r :: rest => if r.1 name mime then r.2 else firstMatch name mime rest

/-- Rule-list dispatcher over the lowercased name and media type. -/
def dispatch_rules (rawName rawMime : String) : Handler :=
  firstMatch (pyLower rawName) (pyLower rawMime) HANDLER_RULES

/-- C6 amended: dispatch evaluates the format branches in the fixed
priority order pdf, docx, xlsx/xlsm, xls, csv, pptx, each branch matching
on the file-name suffix or on a media-type substring, first match winning
— so an earlier format's media-type match overrides a later format's
suffix match; when no media type is declared, dispatch is determined by
the suffix exactly as the claim describes; an artifact matching no branch
is skipped with a visible warning, its marker block carries no extracted
text, and the batch still aggregates successfully. -/
theorem dispatch_branch_order :
    (∀ nm mi : String, dispatch nm mi = dispatch_rules nm mi) ∧
    (∀ nm : String, dispatch nm "" = dispatch_claimed nm "") ∧
    (∀ f : UploadedFile, dispatch f.name f.type = Handler.unsupported →
      fileBlock f = "--- START OF FILE: " ++ f.name ++ " ---\n\n"
        ++ "\n\n--- END OF FILE: " ++ f.name ++ " ---\n\n") ∧
    (∀ (files : List UploadedFile) (notes : String), files ≠ [] →
      (get_all_input_text files notes).2 = true) := by
  refine ⟨fun nm mi => rfl, ?_, ?_, ?_⟩
  · intro nm
    have e1 : pyLower "" = "" := rfl
    cases hx : pyEndsWith (pyLower nm) ".xls" <;>
      simp [dispatch, dispatch_claimed, e1, hx,
        (by decide : strHasSub "" "pdf" = false),
        (by decide : strHasSub "" "wordprocessingml" = false),
        (by decide : strHasSub "" "officedocument.spreadsheetml" = false),
        (by decide : ("" == "application/vnd.ms-excel") = false),
        (by decide : strHasSub "" "text/csv" = false),
        (by decide : strHasSub "" "officedocument.presentationml.presentation" = false)]
  · intro f hf
    simp [fileBlock, extract_dispatched, hf]
  · intro files notes hne
    rcases files with _ | ⟨f, fs⟩
    · exact absurd rfl hne
    · simp [get_all_input_text]

/-- C6 amended witness: a `.txt` artifact with media type `text/plain`
matches no branch: it is dispatched to no extractor, its block is just the
two markers, and a batch made of it alone still aggregates with
`ok = true`. -/
theorem dispatch_branch_order_witness :
    (dispatch "notes.txt" "text/plain" = Handler.unsupported) ∧
    fileBlock (UploadedFile.mk "notes.txt" "text/plain"
        (Except.error (PyError.runtimeError "u")) (Except.error (PyError.runtimeError "u"))
        (Except.error (PyError.runtimeError "u")) (Except.error (PyError.runtimeError "u"))
        (Except.error (PyError.runtimeError "u"))) =
      "--- START OF FILE: " ++ "notes.txt" ++ " ---\n\n"
        ++ "\n\n--- END OF FILE: " ++ "notes.txt" ++ " ---\n\n" ∧
    (get_all_input_text
        [UploadedFile.mk "notes.txt" "text/plain"
          (Except.error (PyError.runtimeError "u")) (Except.error (PyError.runtimeError "u"))
          (Except.error (PyError.runtimeError "u")) (Except.error (PyError.runtimeError "u"))
          (Except.error (PyError.runtimeError "u"))] "note").2 = true :=
  ⟨by decide,
   dispatch_branch_order.2.2.1 _ (by decide),
   dispatch_branch_order.2.2.2 _ "note" (List.cons_ne_nil _ _)⟩

end SAR2022
